import Mathlib

/-!
Verification of the flashback backend (`backend/app/main.py`): a FastAPI
service with an upload endpoint (`upload_file`) and a websocket streaming
endpoint (`websocket_processing`).  The external collaborators
(`FileProcessor`, `AIProcessor`, `VideoProcessor`) are modelled as
parameters that either succeed with a value or fail with an exception
message (`Except String`).  The SQLite-backed `db_service` is not part of
the sources, so its two operations are modelled from the spec (see the
doc comments on `store_task` and `get_chapters`).
-/

namespace Flashback

/-- A chapter record as stored by the upload endpoint:
`{"title": chapter}` in `main.py`. -/
structure Chapter where
  title : String
deriving DecidableEq, Repr

/-- The task store keyed by task id, holding `(filename, chapters)` per task. -/
def TaskStore : Type := String → Option (String × List Chapter)

/-- Modelled from the spec: `db_service.store_task` is not under the sources
(only its call site in `main.py` is). §4.3: `store_task(task_id, filename,
chapters) -> void`, with read-after-write visibility to `get_chapters`. -/
def store_task (store : TaskStore) (task_id filename : String)
    (chapters : List Chapter) : TaskStore :=
  fun k => if k = task_id then some (filename, chapters) else store k

/-- Modelled from the spec: `db_service.get_chapters` is not under the
sources.  §4.3: `get_chapters(task_id) -> ordered sequence of Chapter,
fails with NotFound if absent`; the failure carries a message that the
generic error path of the websocket handler surfaces. -/
def get_chapters (store : TaskStore) (task_id : String) :
    Except String (List Chapter) :=
  match store task_id with
  | some (_, chapters) => Except.ok chapters
  | none => Except.error ("Task not found: " ++ task_id)

/-- Normalisation of one Python slice bound for a list of length `n`
(step 1): a negative index counts from the end and clamps at 0, a
non-negative index clamps at `n`. -/
def pyIndex (n : Nat) (i : Int) : Nat :=
  if i < 0 then ((n : Int) + i).toNat else min i.toNat n

/-- Python slice `xs[i:j]` (step 1), as used by
`chapters[start_chapter:end_chapter+1]` in `main.py`. -/
def pySlice {α : Type} (xs : List α) (i j : Int) : List α :=
  (xs.drop (pyIndex xs.length i)).take (pyIndex xs.length j - pyIndex xs.length i)

/-- The JSON events sent over the websocket by `websocket_processing`. -/
inductive WSEvent where
  | processing (chapter : Nat) (total_chapters : Nat)
  | chapter_complete (video_path : String) (chapter_title : String)
  | completed (message : String)
  | error (message : String)
deriving DecidableEq, Repr

def WSEvent.isProcessing : WSEvent → Bool
  | .processing _ _ => true
  | _ => false

def WSEvent.isChapterComplete : WSEvent → Bool
  | .chapter_complete _ _ => true
  | _ => false

def WSEvent.isCompleted : WSEvent → Bool
  | .completed _ => true
  | _ => false

def WSEvent.isError : WSEvent → Bool
  | .error _ => true
  | _ => false

def countProcessing (es : List WSEvent) : Nat :=
  (es.filter WSEvent.isProcessing).length

def countChapterComplete (es : List WSEvent) : Nat :=
  (es.filter WSEvent.isChapterComplete).length

def countCompleted (es : List WSEvent) : Nat :=
  (es.filter WSEvent.isCompleted).length

def countError (es : List WSEvent) : Nat :=
  (es.filter WSEvent.isError).length

/-- The external generation capabilities used by the per-chapter loop
(`ai_processor` and `video_processor` in `main.py`); each call either
returns a value or raises an exception with a message. -/
structure Pipeline where
  generate_script : Chapter → String → Except String String
  generate_voiceover : String → Except String String
  generate_subtitles : String → Except String String
  generate_image : String → String → Except String String
  create_video : String → String → String → String → Except String String

def exceptIsOk {ε α : Type} : Except ε α → Bool
  | .ok _ => true
  | .error _ => false

/-- The five pipeline stages, in the order the per-chapter loop invokes them. -/
inductive Stage where
  | script
  | voiceover
  | subtitles
  | image
  | merge
deriving DecidableEq, Repr

/-- The body of one iteration of the per-chapter loop in
`websocket_processing`: script, then voiceover from the script, subtitles
from the audio, image from script and content type, and the merged video;
the first exception aborts the rest.  Also returns the list of stages that
were actually invoked, in invocation order. -/
def runChapterPipeline (p : Pipeline) (content_type : String) (ch : Chapter) :
    Except String String × List Stage :=
  match p.generate_script ch content_type with
  | .error e => (Except.error e, [Stage.script])
  | .ok script =>
    match p.generate_voiceover script with
    | .error e => (Except.error e, [Stage.script, Stage.voiceover])
    | .ok audio_path =>
      match p.generate_subtitles audio_path with
      | .error e => (Except.error e, [Stage.script, Stage.voiceover, Stage.subtitles])
      | .ok subtitles =>
        match p.generate_image script content_type with
        | .error e =>
          (Except.error e, [Stage.script, Stage.voiceover, Stage.subtitles, Stage.image])
        | .ok image_path =>
          match p.create_video script audio_path subtitles image_path with
          | .error e =>
            (Except.error e,
             [Stage.script, Stage.voiceover, Stage.subtitles, Stage.image, Stage.merge])
          | .ok video_path =>
            (Except.ok video_path,
             [Stage.script, Stage.voiceover, Stage.subtitles, Stage.image, Stage.merge])

/-- The event trace produced by the `for idx, chapter in enumerate(...)`
loop of `websocket_processing` together with the code that follows it:
a `processing` event before each chapter, a `chapter_complete` event after
a successful chapter, a single trailing `completed` event when the loop
finishes, and a single `error` event (ending the trace) as soon as a
stage raises. -/
def chapterEvents (p : Pipeline) (content_type : String) (total : Nat) :
    Nat → List Chapter → List WSEvent
  | _, [] => [WSEvent.completed "All chapters processed successfully"]
  | idx, ch :: rest =>
    WSEvent.processing (idx + 1) total ::
      match (runChapterPipeline p content_type ch).1 with
      | .ok video_path =>
        WSEvent.chapter_complete video_path ch.title ::
          chapterEvents p content_type total (idx + 1) rest
      | .error e => [WSEvent.error e]

/-- Observable outcome of one websocket session. -/
structure WSOutcome where
  accepted : Bool
  closeCode : Nat
  closeReason : String
  events : List WSEvent
  closed : Bool
deriving DecidableEq, Repr

/-- The `/ws/process` handler `websocket_processing` in `main.py`:
an empty `task_id` is rejected with close code 4003 before accepting;
otherwise the stream is accepted, the stored chapters are looked up (a
lookup failure falls into the generic `except` and becomes a single
`error` event), the inclusive range is selected with the Python slice
`chapters[start_chapter:end_chapter+1]`, the loop emits its events, and
the `finally` block closes the connection. -/
def websocket_processing (store : TaskStore) (p : Pipeline)
    (task_id content_type : String) (start_chapter end_chapter : Int) :
    WSOutcome :=
  if task_id = "" then
    { accepted := false, closeCode := 4003, closeReason := "Invalid task_id",
      events := [], closed := true }
  else
    { accepted := true, closeCode := 1000, closeReason := "",
      events :=
        match get_chapters store task_id with
        | .error e => [WSEvent.error e]
        | .ok chapters =>
          chapterEvents p content_type
            (pySlice chapters start_chapter (end_chapter + 1)).length 0
            (pySlice chapters start_chapter (end_chapter + 1)),
      closed := true }

/-- Outcome of the `open(temp_path, "wb"); buffer.write(...)` block in
`upload_file`: success, an IOError after the file was created (write
failed), or an IOError before any file existed (open failed). -/
inductive SaveResult where
  | ok
  | errCreated (msg : String)
  | errNotCreated (msg : String)
deriving DecidableEq, Repr

/-- One upload request: the filename and size of the uploaded file plus
the behaviour of the external calls made on its behalf
(`file_processor.process_file` and `ai_processor.generact_list_of_subject`,
the latter keeping the source's spelling). -/
structure UploadInput where
  filename : String
  file_size : Nat
  save : SaveResult
  process_file : Except String String
  generact_list_of_subject : String → Except String (List String)

/-- The parts of the filesystem state `upload_file` touches: whether the
local variable `temp_path` was assigned, and whether the file at
`./videos/tmp/<filename>` exists. -/
structure FsState where
  tempPathDefined : Bool
  tempExists : Bool
deriving DecidableEq, Repr

/-- Observable outcome of one upload request. -/
structure UploadOutcome where
  status : Nat
  detail : String
  task_id : Option String
  chapters : Option (List String)
  store : TaskStore
  storeCalled : Bool
  fs : FsState

/-- The `try` body of `upload_file` in `main.py`, before the `finally`
block runs: filename and size validation, saving the temporary file,
extraction and segmentation (whose `except` branch removes the temporary
file itself), task id allocation (`fresh_task_id` stands for
`str(uuid.uuid4())`), and the `store_task` call on the success path. -/
def uploadBody (store : TaskStore) (inp : UploadInput) (fresh_task_id : String) :
    UploadOutcome :=
  if inp.filename = "" then
    { status := 400, detail := "No file name provided", task_id := none,
      chapters := none, store := store, storeCalled := false,
      fs := ⟨false, false⟩ }
  else if inp.file_size > 100 * 1024 * 1024 then
    { status := 413, detail := "File too large. Maximum size is 100MB",
      task_id := none, chapters := none, store := store, storeCalled := false,
      fs := ⟨false, false⟩ }
  else
    match inp.save with
    | SaveResult.errNotCreated e =>
      { status := 500, detail := "Error saving file: " ++ e, task_id := none,
        chapters := none, store := store, storeCalled := false,
        fs := ⟨true, false⟩ }
    | SaveResult.errCreated e =>
      { status := 500, detail := "Error saving file: " ++ e, task_id := none,
        chapters := none, store := store, storeCalled := false,
        fs := ⟨true, true⟩ }
    | SaveResult.ok =>
      match inp.process_file with
      | .error e =>
        { status := 422, detail := "Error processing file: " ++ e,
          task_id := none, chapters := none, store := store,
          storeCalled := false, fs := ⟨true, false⟩ }
      | .ok content =>
        match inp.generact_list_of_subject content with
        | .error e =>
          { status := 422, detail := "Error processing file: " ++ e,
            task_id := none, chapters := none, store := store,
            storeCalled := false, fs := ⟨true, false⟩ }
        | .ok chapters_of_subject =>
          { status := 200, detail := "",
            task_id := some fresh_task_id,
            chapters := some chapters_of_subject,
            store := store_task store fresh_task_id inp.filename
              (chapters_of_subject.map Chapter.mk),
            storeCalled := true,
            fs := ⟨true, true⟩ }

/-- The `finally` block of `upload_file`: remove the temporary file when
`temp_path` was assigned and the file exists. -/
def finallyCleanup (fs : FsState) : FsState :=
  if fs.tempPathDefined && fs.tempExists then { fs with tempExists := false }
  else fs

/-- The `/api/upload` handler `upload_file` in `main.py`: the `try` body
followed by the `finally` cleanup. -/
def upload_file (store : TaskStore) (inp : UploadInput) (fresh_task_id : String) :
    UploadOutcome :=
  let r := uploadBody store inp fresh_task_id
  { r with fs := finallyCleanup r.fs }

/-- A pipeline in which no external stage ever raises ("every pipeline
stage succeeds"). -/
def Pipeline.totalOk (p : Pipeline) : Prop :=
  (∀ ch ct, exceptIsOk (p.generate_script ch ct) = true) ∧
  (∀ s, exceptIsOk (p.generate_voiceover s) = true) ∧
  (∀ a, exceptIsOk (p.generate_subtitles a) = true) ∧
  (∀ s ct, exceptIsOk (p.generate_image s ct) = true) ∧
  (∀ s a su i, exceptIsOk (p.create_video s a su i) = true)

/-- `pairsShape total i es` holds when `es` consists of
(`processing`, `chapter_complete`) pairs whose `processing` chapter
numbers increase by 1 starting at `i + 1`, each reporting `total` total
chapters, followed by exactly one `completed` event once `total` pairs
have been seen, and nothing else. -/
def pairsShape (total : Nat) : Nat → List WSEvent → Bool
  | i, [WSEvent.completed _] => i == total
  | i, WSEvent.processing c t :: e2 :: rest =>
    c == i + 1 && t == total && e2.isChapterComplete && pairsShape total (i + 1) rest
  | _, _ => false

/-- Test fixture: a pipeline in which every stage succeeds. -/
def okPipe : Pipeline :=
  { generate_script := fun _ _ => Except.ok "script",
    generate_voiceover := fun _ => Except.ok "audio.mp3",
    generate_subtitles := fun _ => Except.ok "subs",
    generate_image := fun _ _ => Except.ok "image.png",
    create_video := fun _ _ _ _ => Except.ok "video.mp4" }

/-- Test fixture: a pipeline whose voiceover stage raises. -/
def failPipe : Pipeline :=
  { okPipe with generate_voiceover := fun _ => Except.error "boom" }

/-- Test fixture: an empty task store. -/
def store0 : TaskStore := fun _ => none

/-- Test fixture: a store holding one task with a single chapter. -/
def store1 : TaskStore :=
  fun k => if k = "t1" then some ("doc.txt", [⟨"Intro"⟩]) else none

/-- Test fixture: a store holding one task with two chapters. -/
def store2 : TaskStore :=
  fun k => if k = "t2" then some ("d.txt", [⟨"A"⟩, ⟨"B"⟩]) else none

/-- Test fixture: a valid upload whose external calls all succeed. -/
def inpGood : UploadInput :=
  { filename := "doc.txt", file_size := 10, save := SaveResult.ok,
    process_file := Except.ok "content",
    generact_list_of_subject := fun _ => Except.ok ["Intro", "Body"] }

/-- Test fixture: an upload with an empty filename. -/
def inpNoName : UploadInput := { inpGood with filename := "" }

/-- Test fixture: an upload one byte over the 100 MB limit. -/
def inpBig : UploadInput := { inpGood with file_size := 100 * 1024 * 1024 + 1 }

theorem runChapterPipeline_isOk (p : Pipeline) (hp : p.totalOk)
    (ct : String) (ch : Chapter) :
    exceptIsOk (runChapterPipeline p ct ch).1 = true := by
  obtain ⟨h1, h2, h3, h4, h5⟩ := hp
  cases hs : p.generate_script ch ct with
  | error e => have := h1 ch ct; rw [hs] at this; exact absurd this (by simp [exceptIsOk])
  | ok script =>
    cases hv : p.generate_voiceover script with
    | error e => have := h2 script; rw [hv] at this; exact absurd this (by simp [exceptIsOk])
    | ok audio_path =>
      cases hsub : p.generate_subtitles audio_path with
      | error e =>
        have := h3 audio_path; rw [hsub] at this; exact absurd this (by simp [exceptIsOk])
      | ok subtitles =>
        cases him : p.generate_image script ct with
        | error e =>
          have := h4 script ct; rw [him] at this; exact absurd this (by simp [exceptIsOk])
        | ok image_path =>
          cases hcv : p.create_video script audio_path subtitles image_path with
          | error e =>
            have := h5 script audio_path subtitles image_path
            rw [hcv] at this; exact absurd this (by simp [exceptIsOk])
          | ok video_path =>
            simp [runChapterPipeline, hs, hv, hsub, him, hcv, exceptIsOk]

theorem exceptIsOk_exists {ε α : Type} {x : Except ε α}
    (h : exceptIsOk x = true) : ∃ v, x = Except.ok v := by
  cases x with
  | ok v => exact ⟨v, rfl⟩
  | error e => simp [exceptIsOk] at h

theorem pairsShape_chapterEvents (p : Pipeline) (hp : p.totalOk) (ct : String) :
    ∀ (chs : List Chapter) (idx total : Nat), total = idx + chs.length →
      pairsShape total idx (chapterEvents p ct total idx chs) = true := by
  intro chs
  induction chs with
  | nil =>
    intro idx total h
    simp only [chapterEvents, pairsShape]
    simp only [List.length_nil, Nat.add_zero] at h
    simp [h]
  | cons ch rest ih =>
    intro idx total h
    obtain ⟨v, hv⟩ := exceptIsOk_exists (runChapterPipeline_isOk p hp ct ch)
    simp only [chapterEvents, hv, pairsShape, WSEvent.isChapterComplete]
    have : total = (idx + 1) + rest.length := by
      simp only [List.length_cons] at h; omega
    simp [ih (idx + 1) total this]

theorem pyIndex_nonneg (n : Nat) (i : Int) (h : 0 ≤ i) :
    pyIndex n i = min i.toNat n := by
  unfold pyIndex
  rw [if_neg (by omega)]

theorem pySlice_length {α : Type} (xs : List α) (i j : Int) :
    (pySlice xs i j).length =
      min (pyIndex xs.length j - pyIndex xs.length i)
        (xs.length - pyIndex xs.length i) := by
  simp [pySlice]

theorem pySlice_length_nonneg {α : Type} (xs : List α) (i j : Int)
    (hi : 0 ≤ i) (hj : 0 ≤ j) :
    (pySlice xs i j).length = (max 0 (min (xs.length : Int) j - i)).toNat := by
  rw [pySlice_length, pyIndex_nonneg _ _ hi, pyIndex_nonneg _ _ hj]
  omega

theorem countProcessing_chapterEvents (p : Pipeline) (hp : p.totalOk) (ct : String) :
    ∀ (chs : List Chapter) (idx total : Nat),
      countProcessing (chapterEvents p ct total idx chs) = chs.length := by
  intro chs
  induction chs with
  | nil => intro idx total; simp [chapterEvents, countProcessing, WSEvent.isProcessing]
  | cons ch rest ih =>
    intro idx total
    obtain ⟨v, hv⟩ := exceptIsOk_exists (runChapterPipeline_isOk p hp ct ch)
    have h := ih (idx + 1) total
    simp only [countProcessing] at h ⊢
    simp [chapterEvents, hv, List.filter_cons, WSEvent.isProcessing, h]

theorem countChapterComplete_chapterEvents (p : Pipeline) (hp : p.totalOk) (ct : String) :
    ∀ (chs : List Chapter) (idx total : Nat),
      countChapterComplete (chapterEvents p ct total idx chs) = chs.length := by
  intro chs
  induction chs with
  | nil => intro idx total; simp [chapterEvents, countChapterComplete, WSEvent.isChapterComplete]
  | cons ch rest ih =>
    intro idx total
    obtain ⟨v, hv⟩ := exceptIsOk_exists (runChapterPipeline_isOk p hp ct ch)
    have h := ih (idx + 1) total
    simp only [countChapterComplete] at h ⊢
    simp [chapterEvents, hv, List.filter_cons, WSEvent.isChapterComplete, h]

theorem processing_total_chapterEvents (p : Pipeline) (ct : String) :
    ∀ (chs : List Chapter) (idx total c t : Nat),
      WSEvent.processing c t ∈ chapterEvents p ct total idx chs → t = total := by
  intro chs
  induction chs with
  | nil => intro idx total c t hmem; simp [chapterEvents] at hmem
  | cons ch rest ih =>
    intro idx total c t hmem
    simp only [chapterEvents] at hmem
    rcases List.mem_cons.mp hmem with h | h
    · simp only [WSEvent.processing.injEq] at h
      exact h.2
    · cases hrun : (runChapterPipeline p ct ch).1 with
      | ok v =>
        rw [hrun] at h
        rcases List.mem_cons.mp h with h' | h'
        · cases h'
        · exact ih (idx + 1) total c t h'
      | error e =>
        rw [hrun] at h
        simp at h

/-- The video path produced for a chapter whose pipeline run succeeds. -/
def videoOf (p : Pipeline) (ct : String) (ch : Chapter) : String :=
  match (runChapterPipeline p ct ch).1 with
  | .ok v => v
  | .error _ => ""

/-- The (`processing`, `chapter_complete`) event pairs emitted for a list
of chapters that all succeed, starting at 0-based index `idx`. -/
def okPairEvents (p : Pipeline) (ct : String) (total : Nat) :
    Nat → List Chapter → List WSEvent
  | _, [] => []
  | idx, ch :: rest =>
    WSEvent.processing (idx + 1) total ::
    WSEvent.chapter_complete (videoOf p ct ch) ch.title ::
    okPairEvents p ct total (idx + 1) rest

theorem chapterEvents_fail_split (p : Pipeline) (ct : String) (total : Nat)
    (ch : Chapter) (post : List Chapter) (msg : String)
    (hfail : (runChapterPipeline p ct ch).1 = Except.error msg) :
    ∀ (pre : List Chapter) (idx : Nat),
      (∀ c ∈ pre, exceptIsOk (runChapterPipeline p ct c).1 = true) →
      chapterEvents p ct total idx (pre ++ ch :: post) =
        okPairEvents p ct total idx pre ++
          [WSEvent.processing (idx + pre.length + 1) total, WSEvent.error msg] := by
  intro pre
  induction pre with
  | nil =>
    intro idx _
    simp [chapterEvents, hfail, okPairEvents]
  | cons c pre ih =>
    intro idx hok
    obtain ⟨v, hv⟩ := exceptIsOk_exists (hok c (List.mem_cons_self c pre))
    have hrec := ih (idx + 1) (fun d hd => hok d (List.mem_cons_of_mem c hd))
    simp only [List.cons_append, chapterEvents, hv, okPairEvents, videoOf, List.append_eq,
      hrec, List.length_cons]
    have harith : idx + 1 + pre.length + 1 = idx + (pre.length + 1) + 1 := by omega
    rw [harith]

theorem okPairEvents_counts (p : Pipeline) (ct : String) (total : Nat) :
    ∀ (pre : List Chapter) (idx : Nat),
      countError (okPairEvents p ct total idx pre) = 0 ∧
      countCompleted (okPairEvents p ct total idx pre) = 0 := by
  intro pre
  induction pre with
  | nil => intro idx; simp [okPairEvents, countError, countCompleted]
  | cons c pre ih =>
    intro idx
    have h := ih (idx + 1)
    simp only [countError, countCompleted] at h ⊢
    simp [okPairEvents, List.filter_cons, WSEvent.isError, WSEvent.isCompleted, h.1, h.2]

theorem map_title_map_mk (l : List String) :
    (l.map Chapter.mk).map Chapter.title = l := by
  induction l with
  | nil => rfl
  | cons a l ih => simp [ih]

/-- Claim C2: a valid upload (non-empty filename, size at most 100 MB,
save, extraction and segmentation all succeed) returns status 200 whose
chapter list equals, element for element and in order, the titles
returned by segmentation, and `get_chapters` on the returned task id then
yields chapters whose titles are in exactly the same order (`store_task`
followed by `get_chapters` round-trips). -/
theorem C2_upload_roundtrip (store : TaskStore) (inp : UploadInput)
    (fresh content : String) (subjects : List String)
    (h1 : inp.filename ≠ "") (h2 : inp.file_size ≤ 100 * 1024 * 1024)
    (h3 : inp.save = SaveResult.ok)
    (h4 : inp.process_file = Except.ok content)
    (h5 : inp.generact_list_of_subject content = Except.ok subjects) :
    (upload_file store inp fresh).status = 200 ∧
    (upload_file store inp fresh).chapters = some subjects ∧
    get_chapters (upload_file store inp fresh).store fresh =
      Except.ok (subjects.map Chapter.mk) ∧
    (subjects.map Chapter.mk).map Chapter.title = subjects := by
  have h2' : ¬ inp.file_size > 100 * 1024 * 1024 := by omega
  refine ⟨?_, ?_, ?_, map_title_map_mk subjects⟩ <;>
    simp [upload_file, uploadBody, h1, h2', h3, h4, h5, get_chapters, store_task]

/-- Witness for C2 at a concrete upload with two chapters. -/
theorem C2_upload_roundtrip_witness :
    (upload_file store0 inpGood "id1").status = 200 ∧
    (upload_file store0 inpGood "id1").chapters = some ["Intro", "Body"] ∧
    get_chapters (upload_file store0 inpGood "id1").store "id1" =
      Except.ok ((["Intro", "Body"] : List String).map Chapter.mk) ∧
    ((["Intro", "Body"] : List String).map Chapter.mk).map Chapter.title =
      ["Intro", "Body"] :=
  C2_upload_roundtrip store0 inpGood "id1" "content" ["Intro", "Body"]
    (by decide) (by decide) rfl rfl rfl

/-- Claim C6: after every upload request completes (success, client
error, or server error), the temporary file at `./videos/tmp/<filename>`
no longer exists. -/
theorem C6_temp_file_removed (store : TaskStore) (inp : UploadInput) (fresh : String) :
    (upload_file store inp fresh).fs.tempExists = false := by
  by_cases h1 : inp.filename = ""
  · simp [upload_file, uploadBody, finallyCleanup, h1]
  · by_cases h2 : inp.file_size > 100 * 1024 * 1024
    · simp [upload_file, uploadBody, finallyCleanup, h1, h2]
    · cases hs : inp.save with
      | ok =>
        cases hp : inp.process_file with
        | error e => simp [upload_file, uploadBody, finallyCleanup, h1, h2, hs, hp]
        | ok content =>
          cases hg : inp.generact_list_of_subject content with
          | error e => simp [upload_file, uploadBody, finallyCleanup, h1, h2, hs, hp, hg]
          | ok subs => simp [upload_file, uploadBody, finallyCleanup, h1, h2, hs, hp, hg]
      | errCreated e => simp [upload_file, uploadBody, finallyCleanup, h1, h2, hs]
      | errNotCreated e => simp [upload_file, uploadBody, finallyCleanup, h1, h2, hs]

/-- Claim C7: the upload endpoint returns 400 on an empty filename,
413 when the size strictly exceeds 100*1024*1024 bytes (given the
filename check passed), and in the oversize case `store_task` is never
called. -/
theorem C7_upload_rejections (store : TaskStore) (inp : UploadInput) (fresh : String) :
    (inp.filename = "" → (upload_file store inp fresh).status = 400) ∧
    (inp.filename ≠ "" → inp.file_size > 100 * 1024 * 1024 →
      (upload_file store inp fresh).status = 413) ∧
    (inp.file_size > 100 * 1024 * 1024 →
      (upload_file store inp fresh).storeCalled = false) := by
  refine ⟨fun h1 => ?_, fun h1 h2 => ?_, fun h2 => ?_⟩
  · simp [upload_file, uploadBody, h1]
  · simp [upload_file, uploadBody, h1, h2]
  · by_cases h1 : inp.filename = ""
    · simp [upload_file, uploadBody, h1]
    · simp [upload_file, uploadBody, h1, h2]

/-- Witness for C7 at a concrete no-name upload and a concrete oversize
upload. -/
theorem C7_upload_rejections_witness :
    (upload_file store0 inpNoName "f1").status = 400 ∧
    (upload_file store0 inpBig "f2").status = 413 ∧
    (upload_file store0 inpBig "f2").storeCalled = false :=
  ⟨(C7_upload_rejections store0 inpNoName "f1").1 rfl,
   (C7_upload_rejections store0 inpBig "f2").2.1 (by decide) (by decide),
   (C7_upload_rejections store0 inpBig "f2").2.2 (by decide)⟩

/-- Claim C10: `store_task` is invoked exactly on the success path, so
every failing status (400, 413, 422, 500) creates no task record, and a
200 response implies extraction and segmentation succeeded. -/
theorem C10_store_only_on_success (store : TaskStore) (inp : UploadInput) (fresh : String) :
    ((upload_file store inp fresh).storeCalled = true ↔
      (upload_file store inp fresh).status = 200) ∧
    ((upload_file store inp fresh).status = 200 →
      ∃ content subjects, inp.process_file = Except.ok content ∧
        inp.generact_list_of_subject content = Except.ok subjects) := by
  by_cases h1 : inp.filename = ""
  · simp [upload_file, uploadBody, h1]
  · by_cases h2 : inp.file_size > 100 * 1024 * 1024
    · simp [upload_file, uploadBody, h1, h2]
    · cases hs : inp.save with
      | ok =>
        cases hp : inp.process_file with
        | error e => simp [upload_file, uploadBody, h1, h2, hs, hp]
        | ok content =>
          cases hg : inp.generact_list_of_subject content with
          | error e => simp [upload_file, uploadBody, h1, h2, hs, hp, hg]
          | ok subs =>
            refine ⟨by simp [upload_file, uploadBody, h1, h2, hs, hp, hg],
              fun _ => ⟨content, subs, rfl, hg⟩⟩
      | errCreated e => simp [upload_file, uploadBody, h1, h2, hs]
      | errNotCreated e => simp [upload_file, uploadBody, h1, h2, hs]

/-- Witness for C10 at a concrete successful upload. -/
theorem C10_store_only_on_success_witness :
    ((upload_file store0 inpGood "f3").storeCalled = true ↔
      (upload_file store0 inpGood "f3").status = 200) ∧
    ((upload_file store0 inpGood "f3").status = 200 →
      ∃ content subjects, inpGood.process_file = Except.ok content ∧
        inpGood.generact_list_of_subject content = Except.ok subjects) :=
  C10_store_only_on_success store0 inpGood "f3"

/-- Claim C5: a streaming connection opened with an empty task id is
closed with code 4003 and reason "Invalid task_id" before the stream is
accepted, and no event of any kind is emitted. -/
theorem C5_empty_task_id (store : TaskStore) (p : Pipeline)
    (task_id content_type : String) (s e : Int) (h : task_id = "") :
    (websocket_processing store p task_id content_type s e).accepted = false ∧
    (websocket_processing store p task_id content_type s e).closeCode = 4003 ∧
    (websocket_processing store p task_id content_type s e).closeReason = "Invalid task_id" ∧
    (websocket_processing store p task_id content_type s e).events = [] := by
  subst h
  simp [websocket_processing]

/-- Witness for C5 at a concrete connection with an empty task id. -/
theorem C5_empty_task_id_witness :
    (websocket_processing store1 okPipe "" "KeyMoment" 0 3).accepted = false ∧
    (websocket_processing store1 okPipe "" "KeyMoment" 0 3).closeCode = 4003 ∧
    (websocket_processing store1 okPipe "" "KeyMoment" 0 3).closeReason = "Invalid task_id" ∧
    (websocket_processing store1 okPipe "" "KeyMoment" 0 3).events = [] :=
  C5_empty_task_id store1 okPipe "" "KeyMoment" 0 3 rfl

/-- Claim C4: for a non-empty task id with no stored task, the stream is
accepted and exactly one `error` event carrying the lookup failure's
message is emitted before the connection closes; no `processing`,
`chapter_complete` or `completed` event is emitted. -/
theorem C4_unknown_task (store : TaskStore) (p : Pipeline)
    (task_id content_type : String) (s e : Int)
    (htid : task_id ≠ "") (hnone : store task_id = none) :
    (websocket_processing store p task_id content_type s e).accepted = true ∧
    (∃ msg, get_chapters store task_id = Except.error msg ∧
      (websocket_processing store p task_id content_type s e).events =
        [WSEvent.error msg]) ∧
    (websocket_processing store p task_id content_type s e).closed = true ∧
    countProcessing (websocket_processing store p task_id content_type s e).events = 0 ∧
    countChapterComplete (websocket_processing store p task_id content_type s e).events = 0 ∧
    countCompleted (websocket_processing store p task_id content_type s e).events = 0 := by
  have hg : get_chapters store task_id =
      Except.error ("Task not found: " ++ task_id) := by
    simp [get_chapters, hnone]
  have hev : (websocket_processing store p task_id content_type s e).events =
      [WSEvent.error ("Task not found: " ++ task_id)] := by
    simp [websocket_processing, htid, hg]
  refine ⟨by simp [websocket_processing, htid], ⟨_, hg, hev⟩,
    by simp [websocket_processing, htid], ?_, ?_, ?_⟩ <;>
    simp [hev, countProcessing, countChapterComplete, countCompleted,
      WSEvent.isProcessing, WSEvent.isChapterComplete, WSEvent.isCompleted]

/-- Witness for C4 at a concrete unknown task id. -/
theorem C4_unknown_task_witness :
    (websocket_processing store0 okPipe "t9" "KeyMoment" 0 3).accepted = true ∧
    (∃ msg, get_chapters store0 "t9" = Except.error msg ∧
      (websocket_processing store0 okPipe "t9" "KeyMoment" 0 3).events =
        [WSEvent.error msg]) ∧
    (websocket_processing store0 okPipe "t9" "KeyMoment" 0 3).closed = true ∧
    countProcessing (websocket_processing store0 okPipe "t9" "KeyMoment" 0 3).events = 0 ∧
    countChapterComplete (websocket_processing store0 okPipe "t9" "KeyMoment" 0 3).events = 0 ∧
    countCompleted (websocket_processing store0 okPipe "t9" "KeyMoment" 0 3).events = 0 :=
  C4_unknown_task store0 okPipe "t9" "KeyMoment" 0 3 (by decide) rfl

/-- Counterexample to claim C1 as stated: the task stores a single
chapter, the requested range is the default [0, 3], every stage succeeds,
yet the endpoint emits one (processing, chapter_complete) pair rather
than the claimed 3 - 0 + 1 = 4 pairs, because the Python slice clamps the
range to the stored list. -/
theorem C1_counterexample :
    (websocket_processing store1 okPipe "t1" "KeyMoment" 0 3).events =
      [WSEvent.processing 1 1, WSEvent.chapter_complete "video.mp4" "Intro",
       WSEvent.completed "All chapters processed successfully"] ∧
    pairsShape ((3 : Int) - 0 + 1).toNat 0
      (websocket_processing store1 okPipe "t1" "KeyMoment" 0 3).events = false := by
  decide

/-- Claim C1 (amended): for a stored chapter list and a requested
inclusive range [s, e] that lies within it (0 ≤ s ≤ e < number of stored
chapters), if every pipeline stage succeeds the streaming endpoint emits
exactly e - s + 1 (processing, chapter_complete) event pairs, with
processing chapter numbers increasing by 1 starting at 1, followed by
exactly one `completed` event and nothing else. -/
theorem C1_pairs_then_completed (store : TaskStore) (p : Pipeline)
    (task_id content_type : String) (s e : Int) (chs : List Chapter)
    (htid : task_id ≠ "") (hstore : get_chapters store task_id = Except.ok chs)
    (hp : p.totalOk) (hs : 0 ≤ s) (hse : s ≤ e) (he : e < (chs.length : Int)) :
    pairsShape (e - s + 1).toNat 0
      (websocket_processing store p task_id content_type s e).events = true := by
  have hlen : (pySlice chs s (e + 1)).length = (e - s + 1).toNat := by
    rw [pySlice_length_nonneg chs s (e + 1) hs (by omega)]
    omega
  have hev : (websocket_processing store p task_id content_type s e).events =
      chapterEvents p content_type (pySlice chs s (e + 1)).length 0
        (pySlice chs s (e + 1)) := by
    simp [websocket_processing, htid, hstore]
  rw [hev, ← hlen]
  exact pairsShape_chapterEvents p hp content_type (pySlice chs s (e + 1)) 0
    (pySlice chs s (e + 1)).length (by omega)

/-- Witness for C1 (amended) at a concrete in-range request. -/
theorem C1_pairs_then_completed_witness :
    pairsShape ((0 : Int) - 0 + 1).toNat 0
      (websocket_processing store1 okPipe "t1" "KeyMoment" 0 0).events = true :=
  C1_pairs_then_completed store1 okPipe "t1" "KeyMoment" 0 0 [⟨"Intro"⟩]
    (by decide) rfl
    ⟨fun _ _ => rfl, fun _ => rfl, fun _ => rfl, fun _ _ => rfl, fun _ _ _ _ => rfl⟩
    (by decide) (by decide) (by decide)

theorem countError_append (a b : List WSEvent) :
    countError (a ++ b) = countError a + countError b := by
  simp [countError, List.filter_append]

theorem countCompleted_append (a b : List WSEvent) :
    countCompleted (a ++ b) = countCompleted a + countCompleted b := by
  simp [countCompleted, List.filter_append]

/-- Claim C3: if a pipeline stage raises while processing some chapter of
the selected range (every earlier chapter having succeeded), the endpoint
emits exactly one `error` event carrying the exception's message,
processes no further chapters (the trace ends at the error), emits no
`completed` event, and closes the connection; moreover every session,
completed or errored, ends with the connection closed. -/
theorem C3_error_event_aborts (store : TaskStore) (p : Pipeline)
    (task_id content_type : String) (s e : Int) (chs pre post : List Chapter)
    (ch : Chapter) (msg : String)
    (htid : task_id ≠ "")
    (hstore : get_chapters store task_id = Except.ok chs)
    (hsel : pySlice chs s (e + 1) = pre ++ ch :: post)
    (hpre : ∀ c ∈ pre, exceptIsOk (runChapterPipeline p content_type c).1 = true)
    (hfail : (runChapterPipeline p content_type ch).1 = Except.error msg) :
    (websocket_processing store p task_id content_type s e).events =
      okPairEvents p content_type (pre ++ ch :: post).length 0 pre ++
        [WSEvent.processing (pre.length + 1) (pre ++ ch :: post).length,
         WSEvent.error msg] ∧
    countError (websocket_processing store p task_id content_type s e).events = 1 ∧
    countCompleted (websocket_processing store p task_id content_type s e).events = 0 ∧
    (websocket_processing store p task_id content_type s e).closed = true ∧
    (∀ (st : TaskStore) (q : Pipeline) (t c : String) (a b : Int),
      (websocket_processing st q t c a b).closed = true) := by
  have hsplit := chapterEvents_fail_split p content_type
    (pre ++ ch :: post).length ch post msg hfail pre 0 hpre
  have hev : (websocket_processing store p task_id content_type s e).events =
      okPairEvents p content_type (pre ++ ch :: post).length 0 pre ++
        [WSEvent.processing (pre.length + 1) (pre ++ ch :: post).length,
         WSEvent.error msg] := by
    simp only [websocket_processing, if_neg htid, hstore, hsel]
    rw [hsplit]
    simp
  have hcounts := okPairEvents_counts p content_type (pre ++ ch :: post).length pre 0
  refine ⟨hev, ?_, ?_, by simp [websocket_processing, htid], fun st q t c a b => ?_⟩
  · rw [hev, countError_append, hcounts.1]
    rfl
  · rw [hev, countCompleted_append, hcounts.2]
    rfl
  · by_cases ht : t = "" <;> simp [websocket_processing, ht]

/-- Witness for C3: a voiceover failure on the first selected chapter. -/
theorem C3_error_event_aborts_witness :
    (websocket_processing store1 failPipe "t1" "KeyMoment" 0 3).events =
      [WSEvent.processing 1 1, WSEvent.error "boom"] ∧
    countError (websocket_processing store1 failPipe "t1" "KeyMoment" 0 3).events = 1 ∧
    countCompleted (websocket_processing store1 failPipe "t1" "KeyMoment" 0 3).events = 0 ∧
    (websocket_processing store1 failPipe "t1" "KeyMoment" 0 3).closed = true ∧
    (∀ (st : TaskStore) (q : Pipeline) (t c : String) (a b : Int),
      (websocket_processing st q t c a b).closed = true) :=
  C3_error_event_aborts store1 failPipe "t1" "KeyMoment" 0 3
    [⟨"Intro"⟩] [] [] ⟨"Intro"⟩ "boom"
    (by decide) rfl (by decide) (by simp) rfl

/-- Claim C8: a successful per-chapter run invokes the stages in the
fixed order script, voiceover, subtitles, image, merge, with the
voiceover synthesized from the script, the subtitles derived from the
audio, the image generated from the script and content type, and the
video merged from all four; the following `chapter_complete` event
carries that video's path and the chapter's title. -/
theorem C8_stage_order (p : Pipeline) (content_type : String) (ch : Chapter)
    (v : String) (total idx : Nat) (rest : List Chapter)
    (h : (runChapterPipeline p content_type ch).1 = Except.ok v) :
    (runChapterPipeline p content_type ch).2 =
      [Stage.script, Stage.voiceover, Stage.subtitles, Stage.image, Stage.merge] ∧
    (∃ script audio_path subtitles image_path,
      p.generate_script ch content_type = Except.ok script ∧
      p.generate_voiceover script = Except.ok audio_path ∧
      p.generate_subtitles audio_path = Except.ok subtitles ∧
      p.generate_image script content_type = Except.ok image_path ∧
      p.create_video script audio_path subtitles image_path = Except.ok v) ∧
    chapterEvents p content_type total idx (ch :: rest) =
      WSEvent.processing (idx + 1) total ::
        WSEvent.chapter_complete v ch.title ::
          chapterEvents p content_type total (idx + 1) rest := by
  have key : (runChapterPipeline p content_type ch).2 =
      [Stage.script, Stage.voiceover, Stage.subtitles, Stage.image, Stage.merge] ∧
      (∃ script audio_path subtitles image_path,
        p.generate_script ch content_type = Except.ok script ∧
        p.generate_voiceover script = Except.ok audio_path ∧
        p.generate_subtitles audio_path = Except.ok subtitles ∧
        p.generate_image script content_type = Except.ok image_path ∧
        p.create_video script audio_path subtitles image_path = Except.ok v) := by
    cases hs : p.generate_script ch content_type with
    | error er => simp [runChapterPipeline, hs] at h
    | ok script =>
      cases hv : p.generate_voiceover script with
      | error er => simp [runChapterPipeline, hs, hv] at h
      | ok audio_path =>
        cases hsub : p.generate_subtitles audio_path with
        | error er => simp [runChapterPipeline, hs, hv, hsub] at h
        | ok subtitles =>
          cases him : p.generate_image script content_type with
          | error er => simp [runChapterPipeline, hs, hv, hsub, him] at h
          | ok image_path =>
            cases hcv : p.create_video script audio_path subtitles image_path with
            | error er => simp [runChapterPipeline, hs, hv, hsub, him, hcv] at h
            | ok video_path =>
              simp only [runChapterPipeline, hs, hv, hsub, him, hcv] at h
              simp only [Except.ok.injEq] at h
              refine ⟨by simp [runChapterPipeline, hs, hv, hsub, him, hcv],
                script, audio_path, subtitles, image_path, rfl, hv, hsub, him, ?_⟩
              rw [← h]
              exact hcv
  exact ⟨key.1, key.2, by simp [chapterEvents, h]⟩

/-- Witness for C8 at a concrete all-succeeding pipeline run. -/
theorem C8_stage_order_witness :
    (runChapterPipeline okPipe "KeyMoment" ⟨"Intro"⟩).2 =
      [Stage.script, Stage.voiceover, Stage.subtitles, Stage.image, Stage.merge] ∧
    (∃ script audio_path subtitles image_path,
      okPipe.generate_script ⟨"Intro"⟩ "KeyMoment" = Except.ok script ∧
      okPipe.generate_voiceover script = Except.ok audio_path ∧
      okPipe.generate_subtitles audio_path = Except.ok subtitles ∧
      okPipe.generate_image script "KeyMoment" = Except.ok image_path ∧
      okPipe.create_video script audio_path subtitles image_path =
        Except.ok "video.mp4") ∧
    chapterEvents okPipe "KeyMoment" 1 0 (⟨"Intro"⟩ :: []) =
      WSEvent.processing 1 1 ::
        WSEvent.chapter_complete "video.mp4" (Chapter.mk "Intro").title ::
          chapterEvents okPipe "KeyMoment" 1 1 [] :=
  C8_stage_order okPipe "KeyMoment" ⟨"Intro"⟩ "video.mp4" 1 0 [] rfl

/-- Counterexample to claim C9 as stated: with 2 stored chapters,
start_chapter 0 and end_chapter -2, the code emits one (processing,
chapter_complete) pair (Python resolves chapters[0:-1] to the first
chapter), while the claimed count max(0, min(n, end_chapter+1) -
start_chapter) evaluates to 0. -/
theorem C9_counterexample :
    countProcessing (websocket_processing store2 okPipe "t2" "KeyMoment" 0 (-2)).events = 1 ∧
    (max 0 (min ((2 : Int)) ((-2 : Int) + 1) - 0)).toNat = 0 := by
  decide

/-- Claim C9 (amended): for a stored task with n chapters, 0 ≤
start_chapter, -1 ≤ end_chapter and every stage succeeding, the endpoint
selects the Python slice chapters[start_chapter:end_chapter+1], the
number of (processing, chapter_complete) pairs is
max(0, min(n, end_chapter+1) - start_chapter), an empty slice yields a
single `completed` event with no chapter events, and every `processing`
event reports total_chapters as the length of the selected slice. -/
theorem C9_slice_clamping (store : TaskStore) (p : Pipeline)
    (task_id content_type : String) (s e : Int) (chs : List Chapter)
    (htid : task_id ≠ "") (hstore : get_chapters store task_id = Except.ok chs)
    (hp : p.totalOk) (hs : 0 ≤ s) (he : -1 ≤ e) :
    countProcessing (websocket_processing store p task_id content_type s e).events =
      (max 0 (min (chs.length : Int) (e + 1) - s)).toNat ∧
    countChapterComplete (websocket_processing store p task_id content_type s e).events =
      (max 0 (min (chs.length : Int) (e + 1) - s)).toNat ∧
    (pySlice chs s (e + 1) = [] →
      (websocket_processing store p task_id content_type s e).events =
        [WSEvent.completed "All chapters processed successfully"]) ∧
    (∀ c t, WSEvent.processing c t ∈
        (websocket_processing store p task_id content_type s e).events →
      t = (pySlice chs s (e + 1)).length) := by
  have hlen := pySlice_length_nonneg chs s (e + 1) hs (by omega)
  have hev : (websocket_processing store p task_id content_type s e).events =
      chapterEvents p content_type (pySlice chs s (e + 1)).length 0
        (pySlice chs s (e + 1)) := by
    simp [websocket_processing, htid, hstore]
  refine ⟨?_, ?_, fun hempty => ?_, fun c t hmem => ?_⟩
  · rw [hev, countProcessing_chapterEvents p hp content_type _ 0 _, hlen]
  · rw [hev, countChapterComplete_chapterEvents p hp content_type _ 0 _, hlen]
  · rw [hev, hempty]
    rfl
  · rw [hev] at hmem
    exact processing_total_chapterEvents p content_type _ 0 _ c t hmem

/-- Witness for C9 (amended) at a concrete two-chapter task with range
[0, 0]. -/
theorem C9_slice_clamping_witness :
    countProcessing (websocket_processing store2 okPipe "t2" "KeyMoment" 0 0).events =
      (max 0 (min (([(⟨"A"⟩ : Chapter), ⟨"B"⟩].length : Nat) : Int) ((0 : Int) + 1) - 0)).toNat ∧
    countChapterComplete (websocket_processing store2 okPipe "t2" "KeyMoment" 0 0).events =
      (max 0 (min (([(⟨"A"⟩ : Chapter), ⟨"B"⟩].length : Nat) : Int) ((0 : Int) + 1) - 0)).toNat ∧
    (pySlice [(⟨"A"⟩ : Chapter), ⟨"B"⟩] 0 ((0 : Int) + 1) = [] →
      (websocket_processing store2 okPipe "t2" "KeyMoment" 0 0).events =
        [WSEvent.completed "All chapters processed successfully"]) ∧
    (∀ c t, WSEvent.processing c t ∈
        (websocket_processing store2 okPipe "t2" "KeyMoment" 0 0).events →
      t = (pySlice [(⟨"A"⟩ : Chapter), ⟨"B"⟩] 0 ((0 : Int) + 1)).length) :=
  C9_slice_clamping store2 okPipe "t2" "KeyMoment" 0 0 [⟨"A"⟩, ⟨"B"⟩]
    (by decide) rfl
    ⟨fun _ _ => rfl, fun _ => rfl, fun _ => rfl, fun _ _ => rfl, fun _ _ _ _ => rfl⟩
    (by decide) (by decide)

end Flashback
